import Mathlib

/-!
Verification of the pytally model-mapping and pagination subsystem.

This file shallowly embeds the code of `src/tally/models/form.py` and
`src/tally/resources/forms.py` (the Form model family and the Forms
resource) and proves the specified properties about the embedding.

Conventions of the embedding:
  - JSON values are `JValue`; a Python `dict` holding JSON data is a
    `PyDict` (an association list with distinct keys; `lookupKey` is
    Python subscript lookup returning `Option`).
  - Python exceptions become `Except PyErr`; the constructors of `PyErr`
    match the builtin exception classes the embedded code can raise.
  - `datetime.fromisoformat` (Python stdlib, external to the repository)
    is modelled as total on strings: its internal format validation is
    not modelled because no verified property depends on it; what is
    modelled faithfully is the `.replace("Z", "+00:00")` normalization
    and the fact that a non-string input raises `AttributeError`.
-/

/-- A JSON value as produced by the request executor. -/
inductive JValue where
  | null : JValue
  | bool (b : Bool) : JValue
  | int (n : Int) : JValue
  | str (s : String) : JValue
  | arr (xs : List JValue) : JValue
  | obj (fields : List (String × JValue)) : JValue

/-- A Python dict holding decoded JSON: an association list of string keys. -/
abbrev PyDict : Type := List (String × JValue)

/-- The Python exceptions the embedded code can raise.  `keyError` is a
missing-subscript failure carrying the key; `valueError` carries the
offending value (in Python it carries a formatted message naming that
value); `typeError` is raised when a non-dict or non-iterable meets dict
subscripting or iteration; `attributeError` carries the missing attribute
name.  `decodingError` is Modelled from the spec: it stands for the
`DecodingError` class of the error taxonomy in spec section 7, whose
definition is not under `src/`; the decode functions under `src/` never
construct it, which is exactly what several theorems below establish. -/
inductive PyErr where
  | keyError (key : String) : PyErr
  | valueError (arg : JValue) : PyErr
  | typeError : PyErr
  | attributeError (name : String) : PyErr
  | decodingError (msg : String) : PyErr

/-- Python dict lookup `d[k]` as an option (first matching key). -/
def lookupKey : PyDict → String → Option JValue
  | [], _ => none
  | (k1, v) :: rest, k => if k = k1 then some v else lookupKey rest k

/-- Python subscript `data[k]`: raises `KeyError(k)` when the key is absent. -/
def getItem (d : PyDict) (k : String) : Except PyErr JValue :=
  match lookupKey d k with
  | some v => Except.ok v
  | none => Except.error (PyErr.keyError k)

/-- Python truthiness of a JSON value (`bool(v)`). -/
def JValue.truthy : JValue → Bool
  | JValue.null => false
  | JValue.bool b => b
  | JValue.int n => n != 0
  | JValue.str s => !(s == "")
  | JValue.arr xs => !xs.isEmpty
  | JValue.obj fs => !fs.isEmpty

/-- The `FormStatus` enum from `models/form.py`. -/
inductive FormStatus where
  | BLANK : FormStatus
  | DRAFT : FormStatus
  | PUBLISHED : FormStatus
  | DELETED : FormStatus
deriving DecidableEq

/-- The wire strings of the closed `FormStatus` catalogue. -/
def statusStrings : List String := ["BLANK", "DRAFT", "PUBLISHED", "DELETED"]

/-- The enum call `FormStatus(x)`: succeeds exactly on the four member
strings and raises `ValueError` (naming the offending value) otherwise. -/
def FormStatus.ofValue : JValue → Except PyErr FormStatus
  | JValue.str s =>
    if s = "BLANK" then Except.ok FormStatus.BLANK
    else if s = "DRAFT" then Except.ok FormStatus.DRAFT
    else if s = "PUBLISHED" then Except.ok FormStatus.PUBLISHED
    else if s = "DELETED" then Except.ok FormStatus.DELETED
    else Except.error (PyErr.valueError (JValue.str s))
  | v => Except.error (PyErr.valueError v)

/-- A timezone-aware instant as produced by `datetime.fromisoformat`;
represented by its (already `Z`-normalized) ISO string. -/
structure PyDatetime where
  iso : String
deriving DecidableEq

/-- Character-level form of Python `s.replace("Z", "+00:00")`: the pattern
is the single character `Z`, so replacement is per-character substitution. -/
def replaceZChars : List Char → List Char
  | [] => []
  | c :: rest =>
    if c = 'Z' then '+' :: '0' :: '0' :: ':' :: '0' :: '0' :: replaceZChars rest
    else c :: replaceZChars rest

/-- Python `s.replace("Z", "+00:00")` on a string. -/
def pyReplaceZ (s : String) : String := String.mk (replaceZChars s.data)

/-- The expression `datetime.fromisoformat(v.replace("Z", "+00:00"))` from
`Form.from_dict`: a non-string `v` raises `AttributeError` at `.replace`;
on strings the stdlib parser is modelled as total (see the file header). -/
def pyToDatetime : JValue → Except PyErr PyDatetime
  | JValue.str s => Except.ok (PyDatetime.mk (pyReplaceZ s))
  | _ => Except.error (PyErr.attributeError "replace")

/-- The `FormPayment` dataclass.  The source stores `data["amount"]` and
`data["currency"]` without any type conversion, so the fields hold the
raw wire values. -/
structure FormPayment where
  amount : JValue
  currency : JValue

/-- The classmethod `FormPayment.from_dict`. -/
def FormPayment.from_dict (data : PyDict) : Except PyErr FormPayment := do
  let amount ← getItem data "amount"
  let currency ← getItem data "currency"
  return { amount := amount, currency := currency }

/-- The call `FormPayment.from_dict(payment)` at an arbitrary list element:
a non-dict element raises `TypeError` at the first subscript. -/
def FormPayment.fromItem : JValue → Except PyErr FormPayment
  | JValue.obj d => FormPayment.from_dict d
  | _ => Except.error PyErr.typeError

/-- The `payments` argument expression of `Form.from_dict` and
`FormCreated.from_dict`:
`[FormPayment.from_dict(p) for p in data.get("payments", [])] if data.get("payments") else None`.
The input is `data.get("payments")`; a falsy value (absent key, empty
list, `null`, ...) yields `None`, a truthy list decodes element-wise, and
a truthy non-list fails when iterated into dict subscripts. -/
def decodePayments : Option JValue → Except PyErr (Option (List FormPayment))
  | none => Except.ok none
  | some v =>
    if v.truthy then
      match v with
      | JValue.arr ps => (ps.mapM FormPayment.fromItem).map Option.some
      | _ => Except.error PyErr.typeError
    else Except.ok none

/-- The `Form` dataclass.  Fields assigned without conversion in
`from_dict` (`id`, `name`, `workspace_id`, `number_of_submissions`,
`is_closed`) hold the raw wire values. -/
structure Form where
  id : JValue
  name : JValue
  workspace_id : JValue
  status : FormStatus
  number_of_submissions : JValue
  is_closed : JValue
  created_at : PyDatetime
  updated_at : PyDatetime
  payments : Option (List FormPayment)

/-- The classmethod `Form.from_dict`, with the constructor arguments
evaluated in source order. -/
def Form.from_dict (data : PyDict) : Except PyErr Form := do
  let idv ← getItem data "id"
  let namev ← getItem data "name"
  let workspaceIdv ← getItem data "workspaceId"
  let statusv ← getItem data "status"
  let status ← FormStatus.ofValue statusv
  let numberOfSubmissionsv ← getItem data "numberOfSubmissions"
  let isClosedv ← getItem data "isClosed"
  let createdAtv ← getItem data "createdAt"
  let created_at ← pyToDatetime createdAtv
  let updatedAtv ← getItem data "updatedAt"
  let updated_at ← pyToDatetime updatedAtv
  let payments ← decodePayments (lookupKey data "payments")
  return { id := idv, name := namev, workspace_id := workspaceIdv,
           status := status, number_of_submissions := numberOfSubmissionsv,
           is_closed := isClosedv, created_at := created_at,
           updated_at := updated_at, payments := payments }

/-- The call `Form.from_dict(form)` at an arbitrary list element: a
non-dict element raises `TypeError` at the first subscript. -/
def Form.fromItem : JValue → Except PyErr Form
  | JValue.obj d => Form.from_dict d
  | _ => Except.error PyErr.typeError

/-- The `items` argument expression of `PaginatedForms.from_dict`:
`[Form.from_dict(form) for form in data.get("items", [])]`.  An absent
key defaults to the empty list; a present non-list value fails when
iterated into dict subscripts. -/
def decodeItems : Option JValue → Except PyErr (List Form)
  | none => Except.ok []
  | some (JValue.arr fs) => fs.mapM Form.fromItem
  | some _ => Except.error PyErr.typeError

/-- The `PaginatedForms` dataclass.  The `page`, `limit`, `total` and
`has_more` fields are assigned without conversion and hold the raw wire
values. -/
structure PaginatedForms where
  items : List Form
  page : JValue
  limit : JValue
  total : JValue
  has_more : JValue

/-- The classmethod `PaginatedForms.from_dict`, with the constructor
arguments evaluated in source order (`items` first). -/
def PaginatedForms.from_dict (data : PyDict) : Except PyErr PaginatedForms := do
  let items ← decodeItems (lookupKey data "items")
  let page ← getItem data "page"
  let limit ← getItem data "limit"
  let total ← getItem data "total"
  let hasMore ← getItem data "hasMore"
  return { items := items, page := page, limit := limit, total := total,
           has_more := hasMore }

/-- The `FormCreated` dataclass (the create-response model), field for
field the same shape as `Form`. -/
structure FormCreated where
  id : JValue
  name : JValue
  workspace_id : JValue
  status : FormStatus
  number_of_submissions : JValue
  is_closed : JValue
  created_at : PyDatetime
  updated_at : PyDatetime
  payments : Option (List FormPayment)

/-- The classmethod `FormCreated.from_dict`; its body in the source is the
same text as `Form.from_dict` up to the constructed class. -/
def FormCreated.from_dict (data : PyDict) : Except PyErr FormCreated := do
  let idv ← getItem data "id"
  let namev ← getItem data "name"
  let workspaceIdv ← getItem data "workspaceId"
  let statusv ← getItem data "status"
  let status ← FormStatus.ofValue statusv
  let numberOfSubmissionsv ← getItem data "numberOfSubmissions"
  let isClosedv ← getItem data "isClosed"
  let createdAtv ← getItem data "createdAt"
  let created_at ← pyToDatetime createdAtv
  let updatedAtv ← getItem data "updatedAt"
  let updated_at ← pyToDatetime updatedAtv
  let payments ← decodePayments (lookupKey data "payments")
  return { id := idv, name := namev, workspace_id := workspaceIdv,
           status := status, number_of_submissions := numberOfSubmissionsv,
           is_closed := isClosedv, created_at := created_at,
           updated_at := updated_at, payments := payments }

/-- Field-by-field correspondence between the create-response model and
the read model, used to state that both decoders agree. -/
def formCreatedToForm (c : FormCreated) : Form :=
  { id := c.id, name := c.name, workspace_id := c.workspace_id,
    status := c.status, number_of_submissions := c.number_of_submissions,
    is_closed := c.is_closed, created_at := c.created_at,
    updated_at := c.updated_at, payments := c.payments }

/-- The `BlockType` enum from `models/form.py` (the closed catalogue). -/
inductive BlockType where
  | FORM_TITLE : BlockType
  | TEXT : BlockType
  | LABEL : BlockType
  | TITLE : BlockType
  | HEADING_1 : BlockType
  | HEADING_2 : BlockType
  | HEADING_3 : BlockType
  | DIVIDER : BlockType
  | PAGE_BREAK : BlockType
  | THANK_YOU_PAGE : BlockType
  | IMAGE : BlockType
  | EMBED : BlockType
  | EMBED_VIDEO : BlockType
  | EMBED_AUDIO : BlockType
  | QUESTION : BlockType
  | MATRIX : BlockType
  | INPUT_TEXT : BlockType
  | INPUT_NUMBER : BlockType
  | INPUT_EMAIL : BlockType
  | INPUT_LINK : BlockType
  | INPUT_PHONE_NUMBER : BlockType
  | INPUT_DATE : BlockType
  | INPUT_TIME : BlockType
  | TEXTAREA : BlockType
  | FILE_UPLOAD : BlockType
  | LINEAR_SCALE : BlockType
  | RATING : BlockType
  | HIDDEN_FIELDS : BlockType
  | MULTIPLE_CHOICE_OPTION : BlockType
  | CHECKBOX : BlockType
  | DROPDOWN_OPTION : BlockType
  | RANKING_OPTION : BlockType
  | MULTI_SELECT_OPTION : BlockType
  | PAYMENT : BlockType
  | SIGNATURE : BlockType
  | MATRIX_ROW : BlockType
  | MATRIX_COLUMN : BlockType
  | WALLET_CONNECT : BlockType
  | CONDITIONAL_LOGIC : BlockType
  | CALCULATED_FIELDS : BlockType
  | CAPTCHA : BlockType
  | RESPONDENT_COUNTRY : BlockType
deriving DecidableEq

/-- The `.value` attribute of a `BlockType` member (its wire string). -/
def BlockType.value : BlockType → String
  | BlockType.FORM_TITLE => "FORM_TITLE"
  | BlockType.TEXT => "TEXT"
  | BlockType.LABEL => "LABEL"
  | BlockType.TITLE => "TITLE"
  | BlockType.HEADING_1 => "HEADING_1"
  | BlockType.HEADING_2 => "HEADING_2"
  | BlockType.HEADING_3 => "HEADING_3"
  | BlockType.DIVIDER => "DIVIDER"
  | BlockType.PAGE_BREAK => "PAGE_BREAK"
  | BlockType.THANK_YOU_PAGE => "THANK_YOU_PAGE"
  | BlockType.IMAGE => "IMAGE"
  | BlockType.EMBED => "EMBED"
  | BlockType.EMBED_VIDEO => "EMBED_VIDEO"
  | BlockType.EMBED_AUDIO => "EMBED_AUDIO"
  | BlockType.QUESTION => "QUESTION"
  | BlockType.MATRIX => "MATRIX"
  | BlockType.INPUT_TEXT => "INPUT_TEXT"
  | BlockType.INPUT_NUMBER => "INPUT_NUMBER"
  | BlockType.INPUT_EMAIL => "INPUT_EMAIL"
  | BlockType.INPUT_LINK => "INPUT_LINK"
  | BlockType.INPUT_PHONE_NUMBER => "INPUT_PHONE_NUMBER"
  | BlockType.INPUT_DATE => "INPUT_DATE"
  | BlockType.INPUT_TIME => "INPUT_TIME"
  | BlockType.TEXTAREA => "TEXTAREA"
  | BlockType.FILE_UPLOAD => "FILE_UPLOAD"
  | BlockType.LINEAR_SCALE => "LINEAR_SCALE"
  | BlockType.RATING => "RATING"
  | BlockType.HIDDEN_FIELDS => "HIDDEN_FIELDS"
  | BlockType.MULTIPLE_CHOICE_OPTION => "MULTIPLE_CHOICE_OPTION"
  | BlockType.CHECKBOX => "CHECKBOX"
  | BlockType.DROPDOWN_OPTION => "DROPDOWN_OPTION"
  | BlockType.RANKING_OPTION => "RANKING_OPTION"
  | BlockType.MULTI_SELECT_OPTION => "MULTI_SELECT_OPTION"
  | BlockType.PAYMENT => "PAYMENT"
  | BlockType.SIGNATURE => "SIGNATURE"
  | BlockType.MATRIX_ROW => "MATRIX_ROW"
  | BlockType.MATRIX_COLUMN => "MATRIX_COLUMN"
  | BlockType.WALLET_CONNECT => "WALLET_CONNECT"
  | BlockType.CONDITIONAL_LOGIC => "CONDITIONAL_LOGIC"
  | BlockType.CALCULATED_FIELDS => "CALCULATED_FIELDS"
  | BlockType.CAPTCHA => "CAPTCHA"
  | BlockType.RESPONDENT_COUNTRY => "RESPONDENT_COUNTRY"

/-- The Python annotation `BlockType | str`: either an enum member or an
arbitrary passthrough string (the open escape hatch for unknown types). -/
inductive BlockTypeOrStr where
  | known (t : BlockType) : BlockTypeOrStr
  | raw (s : String) : BlockTypeOrStr

/-- The expression `x.value if isinstance(x, BlockType) else x` used by
`FormBlock.to_dict` for both `type` and `groupType`. -/
def BlockTypeOrStr.wire : BlockTypeOrStr → String
  | BlockTypeOrStr.known t => t.value
  | BlockTypeOrStr.raw s => s

/-- The `FormBlock` dataclass.  The payload annotation `BlockPayload` is a
TypedDict family, i.e. a plain JSON object at runtime, so it is embedded
as a `JValue`. -/
structure FormBlock where
  uuid : String
  type : BlockTypeOrStr
  group_uuid : String
  group_type : BlockTypeOrStr
  payload : Option JValue

/-- The method `FormBlock.to_dict`: four fixed keys, plus `payload`
emitted as-is when not `None`. -/
def FormBlock.to_dict (b : FormBlock) : List (String × JValue) :=
  [("uuid", JValue.str b.uuid),
   ("type", JValue.str b.type.wire),
   ("groupUuid", JValue.str b.group_uuid),
   ("groupType", JValue.str b.group_type.wire)] ++
  (match b.payload with
   | some p => [("payload", p)]
   | none => [])

/-- The `FormSettings` dataclass: 23 optional (`| None = None`) fields and
7 always-present boolean fields, in source order. -/
structure FormSettings where
  language : Option String
  is_closed : Bool
  close_message_title : Option String
  close_message_description : Option String
  close_timezone : Option String
  close_date : Option String
  close_time : Option String
  submissions_limit : Option Int
  unique_submission_key : Option String
  redirect_on_completion : Option String
  has_self_email_notifications : Bool
  self_email_to : Option String
  self_email_reply_to : Option String
  self_email_subject : Option String
  self_email_from_name : Option String
  self_email_body : Option String
  has_respondent_email_notifications : Bool
  respondent_email_to : Option String
  respondent_email_reply_to : Option String
  respondent_email_subject : Option String
  respondent_email_from_name : Option String
  respondent_email_body : Option String
  has_progress_bar : Bool
  has_partial_submissions : Bool
  page_auto_jump : Bool
  save_for_later : Bool
  styles : Option String
  password : Option String
  submissions_data_retention_duration : Option Int
  submissions_data_retention_unit : Option String

/-- One conditional insertion `if field is not None: settings_dict[key] = field`
of `FormSettings.to_dict`: the singleton entry when set, nothing when unset. -/
def optEntry (key : String) : Option JValue → List (String × JValue)
  | some v => [(key, v)]
  | none => []

/-- The method `FormSettings.to_dict`.  The source builds a dict by
inserting keys in order, every key distinct, which is the concatenation
of the per-field entries in source order. -/
def FormSettings.to_dict (s : FormSettings) : List (String × JValue) :=
  optEntry "language" (s.language.map JValue.str) ++
  [("isClosed", JValue.bool s.is_closed)] ++
  optEntry "closeMessageTitle" (s.close_message_title.map JValue.str) ++
  optEntry "closeMessageDescription" (s.close_message_description.map JValue.str) ++
  optEntry "closeTimezone" (s.close_timezone.map JValue.str) ++
  optEntry "closeDate" (s.close_date.map JValue.str) ++
  optEntry "closeTime" (s.close_time.map JValue.str) ++
  optEntry "submissionsLimit" (s.submissions_limit.map JValue.int) ++
  optEntry "uniqueSubmissionKey" (s.unique_submission_key.map JValue.str) ++
  optEntry "redirectOnCompletion" (s.redirect_on_completion.map JValue.str) ++
  [("hasSelfEmailNotifications", JValue.bool s.has_self_email_notifications)] ++
  optEntry "selfEmailTo" (s.self_email_to.map JValue.str) ++
  optEntry "selfEmailReplyTo" (s.self_email_reply_to.map JValue.str) ++
  optEntry "selfEmailSubject" (s.self_email_subject.map JValue.str) ++
  optEntry "selfEmailFromName" (s.self_email_from_name.map JValue.str) ++
  optEntry "selfEmailBody" (s.self_email_body.map JValue.str) ++
  [("hasRespondentEmailNotifications", JValue.bool s.has_respondent_email_notifications)] ++
  optEntry "respondentEmailTo" (s.respondent_email_to.map JValue.str) ++
  optEntry "respondentEmailReplyTo" (s.respondent_email_reply_to.map JValue.str) ++
  optEntry "respondentEmailSubject" (s.respondent_email_subject.map JValue.str) ++
  optEntry "respondentEmailFromName" (s.respondent_email_from_name.map JValue.str) ++
  optEntry "respondentEmailBody" (s.respondent_email_body.map JValue.str) ++
  [("hasProgressBar", JValue.bool s.has_progress_bar)] ++
  [("hasPartialSubmissions", JValue.bool s.has_partial_submissions)] ++
  [("pageAutoJump", JValue.bool s.page_auto_jump)] ++
  [("saveForLater", JValue.bool s.save_for_later)] ++
  optEntry "styles" (s.styles.map JValue.str) ++
  optEntry "password" (s.password.map JValue.str) ++
  optEntry "submissionsDataRetentionDuration" (s.submissions_data_retention_duration.map JValue.int) ++
  optEntry "submissionsDataRetentionUnit" (s.submissions_data_retention_unit.map JValue.str)

/-- One HTTP request as issued through the client boundary
`self._client.request(method, path, params=...)`. -/
structure PyRequest where
  method : String
  path : String
  params : List (String × JValue)

/-- The method `FormsResource.all(page, limit, workspace_ids)`.  The
external request executor is a parameter; the second component of the
result is the list of requests issued during the call (the source issues
exactly the one request it constructs). -/
def FormsResource.all (client : PyRequest → PyDict) (page : Int) (limit : Int)
    (workspace_ids : Option (List String)) :
    Except PyErr PaginatedForms × List PyRequest :=
  let params : List (String × JValue) :=
    [("page", JValue.int page), ("limit", JValue.int limit)] ++
    (match workspace_ids with
     | some ws => [("workspaceIds", JValue.arr (ws.map JValue.str))]
     | none => [])
  let req : PyRequest := { method := "GET", path := "/forms", params := params }
  let data := client req
  (PaginatedForms.from_dict data, [req])

/-- The loop of `FormsResource.__iter__` run to completion over the
sequence of (already decoded) page responses the successive `all` calls
return: starting with page counter `page`, each list element is one
response; its items are yielded, and the loop advances only while
`has_more` is truthy.  The result is the yielded forms together with the
page numbers requested, in order. -/
def iterForms (page : Nat) : List PaginatedForms → List Form × List Nat
  | [] => ([], [])
  | r :: rest =>
    if r.has_more.truthy then
      let next := iterForms (page + 1) rest
      (r.items ++ next.1, page :: next.2)
    else (r.items, [page])

/-- Concatenation, in order, of the items of a list of page responses. -/
def concatItems (pages : List PaginatedForms) : List Form :=
  pages.foldr (fun p acc => p.items ++ acc) []

/-- A suspension point of the generator `FormsResource.__iter__`:
`start` is the freshly created generator (before the first fetch), `mid
buffer hm page` is suspended at a `yield` with `buffer` the items of the
current page not yet yielded, `hm` the current response's `has_more`
value, and `page` the current page counter; `done` is exhausted. -/
inductive GenSt where
  | start : GenSt
  | mid (buffer : List Form) (hm : JValue) (page : Nat) : GenSt
  | done : GenSt

/-- The part of one `next()` that runs from the top of the `while True`
loop body: fetch `page` (`fetch` is the page-indexed view of the `all`
calls the loop makes), yield the first item if any, otherwise keep
advancing while `has_more` is truthy.  `fuel` bounds the number of
fetches inside this single `next()` (the Python loop is unbounded over an
infinite run of empty `has_more` pages); exhausted fuel stops without a
fetch, which only under-approximates the requests issued.  The result is
the yielded item (none = `StopIteration`), the next suspension state, and
the page numbers fetched during this step. -/
def fetchLoop (fetch : Nat → PaginatedForms) : Nat → Nat → Option Form × GenSt × List Nat
  | 0, _ => (none, GenSt.done, [])
  | fuel + 1, page =>
    let r := fetch page
    match r.items with
    | f :: rest => (some f, GenSt.mid rest r.has_more page, [page])
    | [] =>
      if r.has_more.truthy then
        let next := fetchLoop fetch fuel (page + 1)
        (next.1, next.2.1, page :: next.2.2)
      else (none, GenSt.done, [page])

/-- One `next()` call on the generator: resume from the suspension state.
From a `yield` with a non-empty buffer the next item is yielded with no
fetch; with an empty buffer the loop either breaks (`has_more` falsy) or
advances to the next page. -/
def genNext (fetch : Nat → PaginatedForms) (fuel : Nat) : GenSt → Option Form × GenSt × List Nat
  | GenSt.start => fetchLoop fetch fuel 1
  | GenSt.mid (f :: rest) hm page => (some f, GenSt.mid rest hm page, [])
  | GenSt.mid [] hm page =>
    if hm.truthy then fetchLoop fetch fuel (page + 1)
    else (none, GenSt.done, [])
  | GenSt.done => (none, GenSt.done, [])

/-- Run `k` successive `next()` calls from a state, collecting the yielded
items and the page numbers fetched. -/
def genRun (fetch : Nat → PaginatedForms) (fuel : Nat) : Nat → GenSt → List Form × List Nat
  | 0, _ => ([], [])
  | k + 1, s =>
    let step := genNext fetch fuel s
    let rest := genRun fetch fuel k step.2.1
    (step.1.toList ++ rest.1, step.2.2 ++ rest.2)

/-- Total number of items on pages `1..n` of the fetched responses. -/
def SumItems (fetch : Nat → PaginatedForms) : Nat → Nat
  | 0 => 0
  | n + 1 => SumItems fetch n + ((fetch (n + 1)).items).length

/-- Consumption invariant of the generator: `c` items have been yielded so
far.  At a `mid` suspension on `page`, the yielded items are exactly the
items of pages `1..page` minus the ones still buffered. -/
def GenInv (fetch : Nat → PaginatedForms) (c : Nat) : GenSt → Prop
  | GenSt.start => c = 0
  | GenSt.mid buffer _ page => c + buffer.length = SumItems fetch page
  | GenSt.done => True

/-- Whether a decode result is the spec's `DecodingError` (see `PyErr`). -/
def isDecodingError {α : Type} : Except PyErr α → Bool
  | Except.error (PyErr.decodingError _) => true
  | _ => false

/-- Bind in `Except` succeeds exactly when both stages succeed. -/
theorem bindE_ok {α β : Type} (x : Except PyErr α) (f : α → Except PyErr β) (b : β) :
    (x >>= f = Except.ok b) ↔ ∃ a, x = Except.ok a ∧ f a = Except.ok b := by
  cases x <;> simp [Bind.bind, Except.bind]

/-- Successful subscript access is exactly presence of the key. -/
theorem getItem_ok (d : PyDict) (k : String) (v : JValue) :
    getItem d k = Except.ok v ↔ lookupKey d k = some v := by
  unfold getItem
  cases lookupKey d k <;> simp

@[simp]
theorem bindE_okArg {α β : Type} (a : α) (f : α → Except PyErr β) :
    (Except.ok a : Except PyErr α) >>= f = f a := rfl

@[simp]
theorem bindE_errArg {α β : Type} (e : PyErr) (f : α → Except PyErr β) :
    (Except.error e : Except PyErr α) >>= f = Except.error e := rfl

/-- Whether a wire key occurs in an encoded payload. -/
def hasKey (d : List (String × JValue)) (k : String) : Bool :=
  (lookupKey d k).isSome

/-- First-some choice on options (how a key lookup traverses appended
dict fragments). -/
def optOr : Option JValue → Option JValue → Option JValue
  | some v, _ => some v
  | none, o => o

/-- The required wire keys of `Form.from_dict` (read by subscript). -/
def formRequiredKeys : List String :=
  ["id", "name", "workspaceId", "status", "numberOfSubmissions", "isClosed",
   "createdAt", "updatedAt"]

/-- The required wire keys of `PaginatedForms.from_dict` (read by subscript). -/
def envRequiredKeys : List String := ["page", "limit", "total", "hasMore"]

/-- All required form keys other than `k` are present, and the ones whose
values are converted (status, timestamps) are well-shaped, so that a
decode of a dict missing exactly `k` reaches the failing subscript. -/
def FormWellFormedExcept (d : PyDict) (k : String) : Prop :=
  (k ≠ "id" → ∃ v, lookupKey d "id" = some v) ∧
  (k ≠ "name" → ∃ v, lookupKey d "name" = some v) ∧
  (k ≠ "workspaceId" → ∃ v, lookupKey d "workspaceId" = some v) ∧
  (k ≠ "status" → ∃ s2, lookupKey d "status" = some (JValue.str s2) ∧ s2 ∈ statusStrings) ∧
  (k ≠ "numberOfSubmissions" → ∃ v, lookupKey d "numberOfSubmissions" = some v) ∧
  (k ≠ "isClosed" → ∃ v, lookupKey d "isClosed" = some v) ∧
  (k ≠ "createdAt" → ∃ s2, lookupKey d "createdAt" = some (JValue.str s2)) ∧
  (k ≠ "updatedAt" → ∃ s2, lookupKey d "updatedAt" = some (JValue.str s2))

/-- All required envelope keys other than `k` are present and the `items`
list decodes, so that a decode of a dict missing exactly `k` reaches the
failing subscript. -/
def EnvWellFormedExcept (d : PyDict) (k : String) : Prop :=
  (∃ l, decodeItems (lookupKey d "items") = Except.ok l) ∧
  (k ≠ "page" → ∃ v, lookupKey d "page" = some v) ∧
  (k ≠ "limit" → ∃ v, lookupKey d "limit" = some v) ∧
  (k ≠ "total" → ∃ v, lookupKey d "total" = some v) ∧
  (k ≠ "hasMore" → ∃ v, lookupKey d "hasMore" = some v)

/-- A complete well-formed form response used as concrete test input. -/
def exFormDict : PyDict :=
  [("id", JValue.str "f1"), ("name", JValue.str "n"),
   ("workspaceId", JValue.str "w"), ("status", JValue.str "DRAFT"),
   ("numberOfSubmissions", JValue.int 3), ("isClosed", JValue.bool false),
   ("createdAt", JValue.str "2024-01-01T00:00:00Z"),
   ("updatedAt", JValue.str "2024-01-02T00:00:00Z")]

/-- The decode of `exFormDict`. -/
def exFormVal : Form :=
  { id := JValue.str "f1", name := JValue.str "n",
    workspace_id := JValue.str "w", status := FormStatus.DRAFT,
    number_of_submissions := JValue.int 3, is_closed := JValue.bool false,
    created_at := PyDatetime.mk "2024-01-01T00:00:00+00:00",
    updated_at := PyDatetime.mk "2024-01-02T00:00:00+00:00", payments := none }

/-- A form response whose `status` string is outside the closed catalogue. -/
def exBadStatusDict : PyDict :=
  [("id", JValue.str "f1"), ("name", JValue.str "n"),
   ("workspaceId", JValue.str "w"), ("status", JValue.str "ARCHIVED"),
   ("numberOfSubmissions", JValue.int 0), ("isClosed", JValue.bool false),
   ("createdAt", JValue.str "2024-01-01T00:00:00Z"),
   ("updatedAt", JValue.str "2024-01-01T00:00:00Z")]

/-- A form response missing the required key `id`. -/
def exMissingIdDict : PyDict :=
  [("name", JValue.str "n"), ("workspaceId", JValue.str "w"),
   ("status", JValue.str "DRAFT"), ("numberOfSubmissions", JValue.int 0),
   ("isClosed", JValue.bool false),
   ("createdAt", JValue.str "2024-01-01T00:00:00Z"),
   ("updatedAt", JValue.str "2024-01-01T00:00:00Z")]

/-- A form response missing the required key `status`. -/
def exMissingStatusDict : PyDict :=
  [("id", JValue.str "f1"), ("name", JValue.str "n"),
   ("workspaceId", JValue.str "w"), ("numberOfSubmissions", JValue.int 0),
   ("isClosed", JValue.bool false),
   ("createdAt", JValue.str "2024-01-01T00:00:00Z"),
   ("updatedAt", JValue.str "2024-01-01T00:00:00Z")]

/-- A paginated envelope without an `items` key. -/
def exEnvNoItemsDict : PyDict :=
  [("page", JValue.int 1), ("limit", JValue.int 50), ("total", JValue.int 0),
   ("hasMore", JValue.bool false)]

/-- A minimal concrete form value for exercising the iterator. -/
def exForm (tag : String) : Form :=
  { id := JValue.str tag, name := JValue.str tag,
    workspace_id := JValue.str "w", status := FormStatus.DRAFT,
    number_of_submissions := JValue.int 0, is_closed := JValue.bool false,
    created_at := PyDatetime.mk "t", updated_at := PyDatetime.mk "t",
    payments := none }

/-- Page 1 of the concrete walk: two items, `has_more` true. -/
def exPage1 : PaginatedForms :=
  { items := [exForm "a", exForm "b"], page := JValue.int 1,
    limit := JValue.int 2, total := JValue.int 4, has_more := JValue.bool true }

/-- Page 2 of the concrete walk: a full limit-sized page (2 items with
`limit` 2) whose `has_more` is false. -/
def exPage2 : PaginatedForms :=
  { items := [exForm "c", exForm "d"], page := JValue.int 2,
    limit := JValue.int 2, total := JValue.int 4, has_more := JValue.bool false }

/-- A page lying beyond the terminating page; it must never be fetched. -/
def exPage3 : PaginatedForms :=
  { items := [exForm "e"], page := JValue.int 3,
    limit := JValue.int 2, total := JValue.int 4, has_more := JValue.bool false }

/-- The concrete page oracle for the iterator claims. -/
def exFetch : Nat → PaginatedForms
  | 1 => exPage1
  | 2 => exPage2
  | _ => exPage3

/-- A concrete request executor answering every request with
`exEnvNoItemsDict`. -/
def exClient : PyRequest → PyDict := fun _ => exEnvNoItemsDict

@[simp]
theorem optOr_some (v : JValue) (o : Option JValue) : optOr (some v) o = some v := rfl

@[simp]
theorem optOr_none (o : Option JValue) : optOr none o = o := rfl

@[simp]
theorem optOr_none_right (o : Option JValue) : optOr o none = o := by
  cases o <;> rfl

@[simp]
theorem lookupKey_nil (k : String) : lookupKey [] k = none := rfl

@[simp]
theorem lookupKey_cons (k1 k : String) (v : JValue) (rest : PyDict) :
    lookupKey ((k1, v) :: rest) k = if k = k1 then some v else lookupKey rest k := rfl

@[simp]
theorem lookupKey_append (l1 l2 : PyDict) (k : String) :
    lookupKey (l1 ++ l2) k = optOr (lookupKey l1 k) (lookupKey l2 k) := by
  induction l1 with
  | nil => simp
  | cons kv rest ih =>
    obtain ⟨k1, v⟩ := kv
    by_cases h : k = k1 <;> simp [h, ih]

@[simp]
theorem lookupKey_optEntry (key k : String) (o : Option JValue) :
    lookupKey (optEntry key o) k = if k = key then o else none := by
  cases o <;> simp [optEntry]

@[simp]
theorem isSome_mapJ {α β : Type} (f : α → β) (o : Option α) :
    (o.map f).isSome = o.isSome := by
  cases o <;> rfl

@[simp]
theorem pureE_ok {α : Type} (a b : α) :
    ((pure a : Except PyErr α) = Except.ok b) ↔ a = b := by
  constructor
  · intro h; exact Except.ok.inj h
  · intro h; rw [h]; rfl

theorem mapE_bind {α β γ : Type} (x : Except PyErr α) (f : α → Except PyErr β) (g : β → γ) :
    (x >>= f).map g = x >>= fun a => (f a).map g := by
  cases x <;> rfl

theorem mapE_pure {α β : Type} (a : α) (g : α → β) :
    (pure a : Except PyErr α).map g = pure (g a) := rfl

/-- C6: a block whose `type` and `groupType` are arbitrary raw strings and
whose payload is an arbitrary JSON object is representable, and `to_dict`
emits the raw type strings unchanged under `type`/`groupType` and the
payload object as-is under `payload`, with no field whitelist. -/
theorem block_raw_type_payload_passthrough (uuid gu t g : String) (p : JValue) :
    FormBlock.to_dict
      { uuid := uuid, type := BlockTypeOrStr.raw t, group_uuid := gu,
        group_type := BlockTypeOrStr.raw g, payload := some p } =
      [("uuid", JValue.str uuid), ("type", JValue.str t),
       ("groupUuid", JValue.str gu), ("groupType", JValue.str g),
       ("payload", p)] := rfl

/-- C9: `FormsResource.all` issues exactly one GET request to `/forms`
whose params carry `page` and `limit` exactly as given (including
out-of-range values, with no local clamping), and carry `workspaceIds`
equal to the given list exactly when `workspace_ids` is present. -/
theorem all_single_request (client : PyRequest → PyDict) (page limit : Int)
    (ws : Option (List String)) :
    (FormsResource.all client page limit ws).2.length = 1 ∧
    ∀ r ∈ (FormsResource.all client page limit ws).2,
      r.method = "GET" ∧ r.path = "/forms" ∧
      lookupKey r.params "page" = some (JValue.int page) ∧
      lookupKey r.params "limit" = some (JValue.int limit) ∧
      lookupKey r.params "workspaceIds" =
        Option.map (fun l => JValue.arr (l.map JValue.str)) ws := by
  cases ws <;> simp [FormsResource.all]

/-- Witness for C9 at out-of-range arguments `page = 0`, `limit = 1000`:
the single request carries them unmodified. -/
theorem all_single_request_witness :
    (FormsResource.all exClient 0 1000 (some ["w1", "w2"])).2.length = 1 ∧
    ∀ r ∈ (FormsResource.all exClient 0 1000 (some ["w1", "w2"])).2,
      r.method = "GET" ∧ r.path = "/forms" ∧
      lookupKey r.params "page" = some (JValue.int 0) ∧
      lookupKey r.params "limit" = some (JValue.int 1000) ∧
      lookupKey r.params "workspaceIds" =
        Option.map (fun l => JValue.arr (l.map JValue.str)) (some ["w1", "w2"]) :=
  all_single_request exClient 0 1000 (some ["w1", "w2"])

/-- C10: `PaginatedForms.from_dict` treats `items` as optional: with the
four envelope keys present but no `items` key, decoding succeeds with an
empty items list (the raw envelope values are carried through). -/
theorem paginated_items_optional (d : PyDict) (p l t hm : JValue)
    (hitems : lookupKey d "items" = none)
    (hp : lookupKey d "page" = some p) (hl : lookupKey d "limit" = some l)
    (ht : lookupKey d "total" = some t) (hhm : lookupKey d "hasMore" = some hm) :
    PaginatedForms.from_dict d =
      Except.ok { items := [], page := p, limit := l, total := t, has_more := hm } := by
  rw [PaginatedForms.from_dict]
  simp [getItem, decodeItems, hitems, hp, hl, ht, hhm]

/-- Witness for C10 on a concrete envelope without `items`. -/
theorem paginated_items_optional_witness :
    PaginatedForms.from_dict exEnvNoItemsDict =
      Except.ok { items := [], page := JValue.int 1, limit := JValue.int 50,
                  total := JValue.int 0, has_more := JValue.bool false } :=
  paginated_items_optional exEnvNoItemsDict (JValue.int 1) (JValue.int 50)
    (JValue.int 0) (JValue.bool false) rfl rfl rfl rfl rfl

/-- C5: the payload of `FormSettings.to_dict` contains the wire key of an
optional field exactly when that field is set; every unset optional
field's camelCase key is entirely absent from the output, for each of the
23 optional settings fields. -/
theorem settings_optional_presence (s : FormSettings) :
    hasKey s.to_dict "language" = s.language.isSome ∧
    hasKey s.to_dict "closeMessageTitle" = s.close_message_title.isSome ∧
    hasKey s.to_dict "closeMessageDescription" = s.close_message_description.isSome ∧
    hasKey s.to_dict "closeTimezone" = s.close_timezone.isSome ∧
    hasKey s.to_dict "closeDate" = s.close_date.isSome ∧
    hasKey s.to_dict "closeTime" = s.close_time.isSome ∧
    hasKey s.to_dict "submissionsLimit" = s.submissions_limit.isSome ∧
    hasKey s.to_dict "uniqueSubmissionKey" = s.unique_submission_key.isSome ∧
    hasKey s.to_dict "redirectOnCompletion" = s.redirect_on_completion.isSome ∧
    hasKey s.to_dict "selfEmailTo" = s.self_email_to.isSome ∧
    hasKey s.to_dict "selfEmailReplyTo" = s.self_email_reply_to.isSome ∧
    hasKey s.to_dict "selfEmailSubject" = s.self_email_subject.isSome ∧
    hasKey s.to_dict "selfEmailFromName" = s.self_email_from_name.isSome ∧
    hasKey s.to_dict "selfEmailBody" = s.self_email_body.isSome ∧
    hasKey s.to_dict "respondentEmailTo" = s.respondent_email_to.isSome ∧
    hasKey s.to_dict "respondentEmailReplyTo" = s.respondent_email_reply_to.isSome ∧
    hasKey s.to_dict "respondentEmailSubject" = s.respondent_email_subject.isSome ∧
    hasKey s.to_dict "respondentEmailFromName" = s.respondent_email_from_name.isSome ∧
    hasKey s.to_dict "respondentEmailBody" = s.respondent_email_body.isSome ∧
    hasKey s.to_dict "styles" = s.styles.isSome ∧
    hasKey s.to_dict "password" = s.password.isSome ∧
    hasKey s.to_dict "submissionsDataRetentionDuration" = s.submissions_data_retention_duration.isSome ∧
    hasKey s.to_dict "submissionsDataRetentionUnit" = s.submissions_data_retention_unit.isSome := by
  refine ⟨?_, ?_, ?_, ?_, ?_, ?_, ?_, ?_, ?_, ?_, ?_, ?_, ?_, ?_, ?_, ?_, ?_,
    ?_, ?_, ?_, ?_, ?_, ?_⟩ <;>
    simp +decide [hasKey, FormSettings.to_dict]

/-- A successful `Form.from_dict` presupposes that every required key was
present and every field conversion succeeded, and fixes each field of the
result. -/
theorem from_dict_ok_parts (d : PyDict) (f : Form)
    (h : Form.from_dict d = Except.ok f) :
    (∃ v, lookupKey d "id" = some v ∧ f.id = v) ∧
    (∃ v, lookupKey d "name" = some v ∧ f.name = v) ∧
    (∃ v, lookupKey d "workspaceId" = some v ∧ f.workspace_id = v) ∧
    (∃ v, lookupKey d "status" = some v ∧ FormStatus.ofValue v = Except.ok f.status) ∧
    (∃ v, lookupKey d "numberOfSubmissions" = some v ∧ f.number_of_submissions = v) ∧
    (∃ v, lookupKey d "isClosed" = some v ∧ f.is_closed = v) ∧
    (∃ v, lookupKey d "createdAt" = some v ∧ pyToDatetime v = Except.ok f.created_at) ∧
    (∃ v, lookupKey d "updatedAt" = some v ∧ pyToDatetime v = Except.ok f.updated_at) ∧
    decodePayments (lookupKey d "payments") = Except.ok f.payments := by
  rw [Form.from_dict] at h
  simp only [bindE_ok, getItem_ok, pureE_ok] at h
  obtain ⟨idv, hid, namev, hname, wsv, hws, stv, hstv, st, hst, nsv, hns, icv, hic,
    cav, hcav, ca, hca, uav, huav, ua, hua, pay, hpay, hmk⟩ := h
  subst hmk
  exact ⟨⟨idv, hid, rfl⟩, ⟨namev, hname, rfl⟩, ⟨wsv, hws, rfl⟩,
    ⟨stv, hstv, hst⟩, ⟨nsv, hns, rfl⟩, ⟨icv, hic, rfl⟩,
    ⟨cav, hcav, hca⟩, ⟨uav, huav, hua⟩, hpay⟩

/-- A successful `PaginatedForms.from_dict` presupposes that the items
list decoded and that each envelope key was present. -/
theorem paginated_ok_parts (d : PyDict) (pf : PaginatedForms)
    (h : PaginatedForms.from_dict d = Except.ok pf) :
    decodeItems (lookupKey d "items") = Except.ok pf.items ∧
    (∃ v, lookupKey d "page" = some v ∧ pf.page = v) ∧
    (∃ v, lookupKey d "limit" = some v ∧ pf.limit = v) ∧
    (∃ v, lookupKey d "total" = some v ∧ pf.total = v) ∧
    (∃ v, lookupKey d "hasMore" = some v ∧ pf.has_more = v) := by
  rw [PaginatedForms.from_dict] at h
  simp only [bindE_ok, getItem_ok, pureE_ok] at h
  obtain ⟨its, hits, pv, hp, lv, hl, tv, ht, hmv, hhm, hmk⟩ := h
  subst hmk
  exact ⟨hits, ⟨pv, hp, rfl⟩, ⟨lv, hl, rfl⟩, ⟨tv, ht, rfl⟩, ⟨hmv, hhm, rfl⟩⟩

/-- A successful status conversion means the string is in the catalogue. -/
theorem ofValue_ok_mem (s : String) (st : FormStatus)
    (h : FormStatus.ofValue (JValue.str s) = Except.ok st) : s ∈ statusStrings := by
  rw [FormStatus.ofValue] at h
  split_ifs at h with h1 h2 h3 h4
  · simp [statusStrings, h1]
  · simp [statusStrings, h2]
  · simp [statusStrings, h3]
  · simp [statusStrings, h4]

/-- A catalogue string converts successfully. -/
theorem mem_ofValue_ok (s : String) (h : s ∈ statusStrings) :
    ∃ st, FormStatus.ofValue (JValue.str s) = Except.ok st := by
  simp [statusStrings] at h
  rcases h with rfl | rfl | rfl | rfl
  · exact ⟨FormStatus.BLANK, rfl⟩
  · exact ⟨FormStatus.DRAFT, rfl⟩
  · exact ⟨FormStatus.PUBLISHED, rfl⟩
  · exact ⟨FormStatus.DELETED, rfl⟩

/-- C3 (amended): decoding a JSON object whose `status` string lies
outside the closed catalogue is a hard failure — `Form.from_dict` never
succeeds with a fallback or default status — and, once the fields read
before `status` are present, the failure is the builtin `ValueError`
raised by the `FormStatus` enum constructor (naming the offending value),
not a `DecodingError`. -/
theorem status_unknown_hard_failure :
    (∀ d s, lookupKey d "status" = some (JValue.str s) → s ∉ statusStrings →
      (Form.from_dict d).isOk = false) ∧
    (∀ d s idv namev wsv, lookupKey d "id" = some idv →
      lookupKey d "name" = some namev → lookupKey d "workspaceId" = some wsv →
      lookupKey d "status" = some (JValue.str s) → s ∉ statusStrings →
      Form.from_dict d = Except.error (PyErr.valueError (JValue.str s))) := by
  constructor
  · intro d s hs hmem
    cases hres : Form.from_dict d with
    | error e => simp [Except.isOk, Except.toBool, hres]
    | ok f =>
      obtain ⟨-, -, -, ⟨v, hv, hconv⟩, -⟩ := from_dict_ok_parts d f hres
      rw [hs] at hv
      obtain rfl := Option.some.inj hv
      exact absurd (ofValue_ok_mem s f.status hconv) hmem
  · intro d s idv namev wsv hid hname hws hs hmem
    have h1 : ¬ s = "BLANK" := fun e => hmem (by rw [e]; simp [statusStrings])
    have h2 : ¬ s = "DRAFT" := fun e => hmem (by rw [e]; simp [statusStrings])
    have h3 : ¬ s = "PUBLISHED" := fun e => hmem (by rw [e]; simp [statusStrings])
    have h4 : ¬ s = "DELETED" := fun e => hmem (by rw [e]; simp [statusStrings])
    rw [Form.from_dict]
    simp [getItem, hid, hname, hws, hs, FormStatus.ofValue, h1, h2, h3, h4]

/-- C3 counterexample: at a concrete response with `status = "ARCHIVED"`,
`Form.from_dict` fails with `ValueError`, so the failure is not the
`DecodingError` the claim states. -/
theorem status_unknown_raises_valueError_not_decodingError :
    Form.from_dict exBadStatusDict =
      Except.error (PyErr.valueError (JValue.str "ARCHIVED")) ∧
    isDecodingError (Form.from_dict exBadStatusDict) = false := ⟨rfl, rfl⟩

/-- Witness for C3 on the concrete bad-status response. -/
theorem status_unknown_hard_failure_witness :
    (Form.from_dict exBadStatusDict).isOk = false :=
  status_unknown_hard_failure.1 exBadStatusDict "ARCHIVED" rfl (by decide)

/-- C4 (amended): a JSON object missing a required wire key never decodes
successfully with a default value, and — provided the fields read before
the missing one decode — the failure is the builtin `KeyError` naming the
missing field (not a `DecodingError`), for both `Form.from_dict` and
`PaginatedForms.from_dict`. -/
theorem required_key_failure :
    (∀ d k, k ∈ formRequiredKeys → lookupKey d k = none →
      (Form.from_dict d).isOk = false) ∧
    (∀ d k, k ∈ envRequiredKeys → lookupKey d k = none →
      (PaginatedForms.from_dict d).isOk = false) ∧
    (∀ d k, k ∈ formRequiredKeys → lookupKey d k = none →
      FormWellFormedExcept d k →
      Form.from_dict d = Except.error (PyErr.keyError k)) ∧
    (∀ d k, k ∈ envRequiredKeys → lookupKey d k = none →
      EnvWellFormedExcept d k →
      PaginatedForms.from_dict d = Except.error (PyErr.keyError k)) := by
  refine ⟨?_, ?_, ?_, ?_⟩
  · intro d k hk hnone
    cases hres : Form.from_dict d with
    | error e => simp [Except.isOk, Except.toBool, hres]
    | ok f =>
      obtain ⟨⟨v1, h1, -⟩, ⟨v2, h2, -⟩, ⟨v3, h3, -⟩, ⟨v4, h4, -⟩, ⟨v5, h5, -⟩,
        ⟨v6, h6, -⟩, ⟨v7, h7, -⟩, ⟨v8, h8, -⟩, -⟩ := from_dict_ok_parts d f hres
      simp [formRequiredKeys] at hk
      rcases hk with rfl | rfl | rfl | rfl | rfl | rfl | rfl | rfl <;> simp_all
  · intro d k hk hnone
    cases hres : PaginatedForms.from_dict d with
    | error e => simp [Except.isOk, Except.toBool, hres]
    | ok pf =>
      obtain ⟨-, ⟨v1, h1, -⟩, ⟨v2, h2, -⟩, ⟨v3, h3, -⟩, ⟨v4, h4, -⟩⟩ :=
        paginated_ok_parts d pf hres
      simp [envRequiredKeys] at hk
      rcases hk with rfl | rfl | rfl | rfl <;> simp_all
  · intro d k hk hnone hwf
    obtain ⟨w1, w2, w3, w4, w5, w6, w7, w8⟩ := hwf
    simp [formRequiredKeys] at hk
    rcases hk with rfl | rfl | rfl | rfl | rfl | rfl | rfl | rfl
    · rw [Form.from_dict]; simp [getItem, hnone]
    · obtain ⟨v1, h1⟩ := w1 (by decide)
      rw [Form.from_dict]; simp [getItem, h1, hnone]
    · obtain ⟨v1, h1⟩ := w1 (by decide)
      obtain ⟨v2, h2⟩ := w2 (by decide)
      rw [Form.from_dict]; simp [getItem, h1, h2, hnone]
    · obtain ⟨v1, h1⟩ := w1 (by decide)
      obtain ⟨v2, h2⟩ := w2 (by decide)
      obtain ⟨v3, h3⟩ := w3 (by decide)
      rw [Form.from_dict]; simp [getItem, h1, h2, h3, hnone]
    · obtain ⟨v1, h1⟩ := w1 (by decide)
      obtain ⟨v2, h2⟩ := w2 (by decide)
      obtain ⟨v3, h3⟩ := w3 (by decide)
      obtain ⟨s4, h4, hmem4⟩ := w4 (by decide)
      obtain ⟨st, hst⟩ := mem_ofValue_ok s4 hmem4
      rw [Form.from_dict]; simp [getItem, h1, h2, h3, h4, hst, hnone]
    · obtain ⟨v1, h1⟩ := w1 (by decide)
      obtain ⟨v2, h2⟩ := w2 (by decide)
      obtain ⟨v3, h3⟩ := w3 (by decide)
      obtain ⟨s4, h4, hmem4⟩ := w4 (by decide)
      obtain ⟨st, hst⟩ := mem_ofValue_ok s4 hmem4
      obtain ⟨v5, h5⟩ := w5 (by decide)
      rw [Form.from_dict]; simp [getItem, h1, h2, h3, h4, hst, h5, hnone]
    · obtain ⟨v1, h1⟩ := w1 (by decide)
      obtain ⟨v2, h2⟩ := w2 (by decide)
      obtain ⟨v3, h3⟩ := w3 (by decide)
      obtain ⟨s4, h4, hmem4⟩ := w4 (by decide)
      obtain ⟨st, hst⟩ := mem_ofValue_ok s4 hmem4
      obtain ⟨v5, h5⟩ := w5 (by decide)
      obtain ⟨v6, h6⟩ := w6 (by decide)
      rw [Form.from_dict]; simp [getItem, h1, h2, h3, h4, hst, h5, h6, hnone]
    · obtain ⟨v1, h1⟩ := w1 (by decide)
      obtain ⟨v2, h2⟩ := w2 (by decide)
      obtain ⟨v3, h3⟩ := w3 (by decide)
      obtain ⟨s4, h4, hmem4⟩ := w4 (by decide)
      obtain ⟨st, hst⟩ := mem_ofValue_ok s4 hmem4
      obtain ⟨v5, h5⟩ := w5 (by decide)
      obtain ⟨v6, h6⟩ := w6 (by decide)
      obtain ⟨s7, h7⟩ := w7 (by decide)
      rw [Form.from_dict]
      simp [getItem, h1, h2, h3, h4, hst, h5, h6, h7, pyToDatetime, hnone]
  · intro d k hk hnone hwf
    obtain ⟨⟨its, hits⟩, w1, w2, w3, w4⟩ := hwf
    simp [envRequiredKeys] at hk
    rcases hk with rfl | rfl | rfl | rfl
    · rw [PaginatedForms.from_dict]; simp [hits, getItem, hnone]
    · obtain ⟨v1, h1⟩ := w1 (by decide)
      rw [PaginatedForms.from_dict]; simp [hits, getItem, h1, hnone]
    · obtain ⟨v1, h1⟩ := w1 (by decide)
      obtain ⟨v2, h2⟩ := w2 (by decide)
      rw [PaginatedForms.from_dict]; simp [hits, getItem, h1, h2, hnone]
    · obtain ⟨v1, h1⟩ := w1 (by decide)
      obtain ⟨v2, h2⟩ := w2 (by decide)
      obtain ⟨v3, h3⟩ := w3 (by decide)
      rw [PaginatedForms.from_dict]; simp [hits, getItem, h1, h2, h3, hnone]

/-- C4 counterexample: at a concrete response missing `id`, decoding
fails with the builtin `KeyError("id")`, not with a `DecodingError`. -/
theorem missing_key_raises_keyError_not_decodingError :
    Form.from_dict exMissingIdDict = Except.error (PyErr.keyError "id") ∧
    isDecodingError (Form.from_dict exMissingIdDict) = false := ⟨rfl, rfl⟩

/-- Witness for C4 on a concrete response missing `status`. -/
theorem required_key_failure_witness :
    Form.from_dict exMissingStatusDict = Except.error (PyErr.keyError "status") :=
  required_key_failure.2.2.1 exMissingStatusDict "status" (by decide) rfl
    ⟨fun _ => ⟨JValue.str "f1", rfl⟩, fun _ => ⟨JValue.str "n", rfl⟩,
     fun _ => ⟨JValue.str "w", rfl⟩, fun h => absurd rfl h,
     fun _ => ⟨JValue.int 0, rfl⟩, fun _ => ⟨JValue.bool false, rfl⟩,
     fun _ => ⟨"2024-01-01T00:00:00Z", rfl⟩,
     fun _ => ⟨"2024-01-01T00:00:00Z", rfl⟩⟩

/-- C7: `FormCreated.from_dict` and `Form.from_dict` implement the same
decode: on every input they fail identically or succeed with field-wise
equal values. -/
theorem create_decodes_like_read (d : PyDict) :
    (FormCreated.from_dict d).map formCreatedToForm = Form.from_dict d := by
  rw [FormCreated.from_dict, Form.from_dict]
  simp only [mapE_bind, mapE_pure, formCreatedToForm]

/-- C8: under `Form.from_dict`, an absent `payments` key and an empty
`payments` list both decode to the distinguished absent value `None`,
while a non-empty list decodes element-wise via `FormPayment`, in order. -/
theorem payments_decode_cases :
    (∀ d f, lookupKey d "payments" = none → Form.from_dict d = Except.ok f →
      f.payments = none) ∧
    (∀ d f, lookupKey d "payments" = some (JValue.arr []) →
      Form.from_dict d = Except.ok f → f.payments = none) ∧
    (∀ d f ps, lookupKey d "payments" = some (JValue.arr ps) → ps ≠ [] →
      Form.from_dict d = Except.ok f →
      ∃ l, ps.mapM FormPayment.fromItem = Except.ok l ∧ f.payments = some l) := by
  refine ⟨?_, ?_, ?_⟩
  · intro d f hp hok
    have hdp := (from_dict_ok_parts d f hok).2.2.2.2.2.2.2.2
    rw [hp] at hdp
    simp [decodePayments] at hdp
    exact hdp.symm
  · intro d f hp hok
    have hdp := (from_dict_ok_parts d f hok).2.2.2.2.2.2.2.2
    rw [hp] at hdp
    simp [decodePayments, JValue.truthy] at hdp
    exact hdp.symm
  · intro d f ps hp hne hok
    have hdp := (from_dict_ok_parts d f hok).2.2.2.2.2.2.2.2
    rw [hp] at hdp
    have htr : (JValue.arr ps).truthy = true := by
      cases ps with
      | nil => exact absurd rfl hne
      | cons a t => rfl
    have hdec : decodePayments (some (JValue.arr ps)) =
        (ps.mapM FormPayment.fromItem).map Option.some := by
      simp [decodePayments, htr]
    rw [hdec] at hdp
    cases hm : ps.mapM FormPayment.fromItem with
    | error e => rw [hm] at hdp; simp [Except.map] at hdp
    | ok l => rw [hm] at hdp; simp [Except.map] at hdp; exact ⟨l, rfl, hdp.symm⟩

/-- Witness for C8 on a concrete response without a `payments` key. -/
theorem payments_decode_witness : exFormVal.payments = none :=
  payments_decode_cases.1 exFormDict exFormVal rfl rfl

/-- The iteration loop, from an arbitrary page counter: visiting pages
that continue (`has_more` truthy) followed by a terminating page yields
the concatenated items and requests exactly the consecutive page numbers,
never touching the pages beyond. -/
theorem iterForms_concat_aux (pre : List PaginatedForms) :
    ∀ (n : Nat) (r : PaginatedForms) (post : List PaginatedForms),
      (∀ p ∈ pre, p.has_more.truthy = true) → r.has_more.truthy = false →
      iterForms n (pre ++ r :: post) =
        (concatItems (pre ++ [r]), List.range' n (pre.length + 1)) := by
  induction pre with
  | nil =>
    intro n r post _ hr
    simp [iterForms, hr, concatItems, List.range']
  | cons p pre ih =>
    intro n r post hpre hr
    have hp : p.has_more.truthy = true := hpre p (by simp)
    have hrest : ∀ q ∈ pre, q.has_more.truthy = true :=
      fun q hq => hpre q (by simp [hq])
    simp [iterForms, hp, ih (n + 1) r post hrest hr, concatItems, List.range']

/-- C1: over any finite run of page responses in which the pages before
the terminator continue (`has_more` truthy) and the terminator's
`has_more` is false — regardless of how many items the terminating page
holds — `FormsResource.__iter__` yields exactly the concatenation of the
items of the pages up to and including the terminator, in order, and
issues exactly one `list` call per such page (pages `1, 2, ...`), with no
call for any page beyond the terminator. -/
theorem iter_flattens_pages (pre post : List PaginatedForms) (r : PaginatedForms)
    (hpre : ∀ p ∈ pre, p.has_more.truthy = true)
    (hr : r.has_more.truthy = false) :
    iterForms 1 (pre ++ r :: post) =
      (concatItems (pre ++ [r]), List.range' 1 (pre.length + 1)) :=
  iterForms_concat_aux pre 1 r post hpre hr

/-- Witness for C1: two pages of two items each, the second page full
size (`limit` 2, two items) with `has_more` false; the walk yields the
four items with calls for pages 1 and 2 only, never touching the third
page. -/
theorem iter_flattens_pages_witness :
    iterForms 1 ([exPage1] ++ exPage2 :: [exPage3]) =
      (concatItems ([exPage1] ++ [exPage2]), List.range' 1 (List.length [exPage1] + 1)) ∧
    iterForms 1 ([exPage1] ++ exPage2 :: [exPage3]) =
      ([exForm "a", exForm "b", exForm "c", exForm "d"], [1, 2]) :=
  ⟨iter_flattens_pages [exPage1] [exPage3] exPage2 (by decide) (by decide), rfl⟩

/-- Page-item counts accumulate monotonically. -/
theorem SumItems_mono (fetch : Nat → PaginatedForms) {n m : Nat} (h : n ≤ m) :
    SumItems fetch n ≤ SumItems fetch m := by
  induction h with
  | refl => exact le_rfl
  | step h2 ih => exact le_trans ih (Nat.le_add_right _ _)

/-- An empty page contributes nothing to the running item count. -/
theorem SumItems_empty_step (fetch : Nat → PaginatedForms) (p : Nat)
    (h : (fetch p).items = []) :
    SumItems fetch p = SumItems fetch (p - 1) := by
  cases p with
  | zero => rfl
  | succ n => simp [SumItems, h]

/-- A non-empty page contributes its item count. -/
theorem SumItems_cons_step (fetch : Nat → PaginatedForms) (p : Nat) (hp : 1 ≤ p)
    (f : Form) (rest : List Form) (h : (fetch p).items = f :: rest) :
    SumItems fetch p = SumItems fetch (p - 1) + rest.length + 1 := by
  cases p with
  | zero => omega
  | succ n =>
    have h2 : SumItems fetch (n + 1) = SumItems fetch n + (rest.length + 1) := by
      simp [SumItems, h]
    rw [Nat.add_sub_cancel]
    omega

/-- Specification of `fetchLoop`: every page it fetches lies at or after
the starting page with only empty continuing pages in between (so the
running consumed count is unchanged), and it either stops exhausted or
suspends on the first item of the first non-empty page reached. -/
theorem fetchLoop_spec (fetch : Nat → PaginatedForms) :
    ∀ (fuel p : Nat),
      (∀ q ∈ (fetchLoop fetch fuel p).2.2,
        p ≤ q ∧ SumItems fetch (q - 1) = SumItems fetch (p - 1)) ∧
      (((fetchLoop fetch fuel p).1 = none ∧
          (fetchLoop fetch fuel p).2.1 = GenSt.done) ∨
        ∃ f rest hm q, (fetchLoop fetch fuel p).1 = some f ∧
          (fetchLoop fetch fuel p).2.1 = GenSt.mid rest hm q ∧ p ≤ q ∧
          SumItems fetch (q - 1) = SumItems fetch (p - 1) ∧
          (fetch q).items = f :: rest) := by
  intro fuel
  induction fuel with
  | zero =>
    intro p
    constructor
    · intro q hq; simp [fetchLoop] at hq
    · left; simp [fetchLoop]
  | succ fuel ih =>
    intro p
    cases hitems : (fetch p).items with
    | cons f rest =>
      constructor
      · intro q hq
        simp [fetchLoop, hitems] at hq
        subst hq
        exact ⟨le_rfl, rfl⟩
      · right
        exact ⟨f, rest, (fetch p).has_more, p, by simp [fetchLoop, hitems],
          by simp [fetchLoop, hitems], le_rfl, rfl, hitems⟩
    | nil =>
      by_cases hm : (fetch p).has_more.truthy
      · have heq : SumItems fetch (p + 1 - 1) = SumItems fetch (p - 1) := by
          rw [Nat.add_sub_cancel]
          exact SumItems_empty_step fetch p hitems
        obtain ⟨ihlog, ihout⟩ := ih (p + 1)
        constructor
        · intro q hq
          simp [fetchLoop, hitems, hm] at hq
          rcases hq with rfl | hq
          · exact ⟨le_rfl, rfl⟩
          · obtain ⟨hle, hsum⟩ := ihlog q hq
            exact ⟨by omega, by rw [hsum]; exact heq⟩
        · rcases ihout with ⟨ho, hs⟩ | ⟨f, rest, hmv, q, ho, hs, hle, hsum, hq⟩
          · left
            constructor <;> simp [fetchLoop, hitems, hm, ho, hs]
          · right
            exact ⟨f, rest, hmv, q, by simp [fetchLoop, hitems, hm, ho],
              by simp [fetchLoop, hitems, hm, hs], by omega,
              by rw [hsum]; exact heq, hq⟩
      · constructor
        · intro q hq
          simp [fetchLoop, hitems, hm] at hq
          subst hq
          exact ⟨le_rfl, rfl⟩
        · left; simp [fetchLoop, hitems, hm]

/-- Entering the fetch loop with all earlier items consumed preserves the
consumption invariant, and every page it fetches has all pages before it
already fully consumed. -/
theorem genNext_fetchLoop_inv (fetch : Nat → PaginatedForms) (fuel c p : Nat)
    (hp : 1 ≤ p) (hc : c = SumItems fetch (p - 1)) :
    GenInv fetch (c + (fetchLoop fetch fuel p).1.toList.length)
      (fetchLoop fetch fuel p).2.1 ∧
    (∀ q ∈ (fetchLoop fetch fuel p).2.2, SumItems fetch (q - 1) ≤ c) ∧
    ((fetchLoop fetch fuel p).1 = none →
      (fetchLoop fetch fuel p).2.1 = GenSt.done) := by
  obtain ⟨hlog, hout⟩ := fetchLoop_spec fetch fuel p
  refine ⟨?_, ?_, ?_⟩
  · rcases hout with ⟨ho, hs⟩ | ⟨f, rest, hmv, q, ho, hs, hle, hsum, hq⟩
    · simp [hs, GenInv]
    · rw [ho, hs]
      have hcons := SumItems_cons_step fetch q (le_trans hp hle) f rest hq
      have hqc : SumItems fetch (q - 1) = c := by rw [hsum, hc]
      show c + 1 + rest.length = SumItems fetch q
      omega
  · intro q hq
    have := (hlog q hq).2
    rw [hc]
    exact le_of_eq this
  · intro h
    rcases hout with ⟨-, hs⟩ | ⟨f, rest, hmv, q, ho, -⟩
    · exact hs
    · rw [ho] at h; cases h

/-- One `next()` preserves the consumption invariant; every page it
fetches has at most the already-consumed items before it; and an
exhausted step leaves the generator exhausted. -/
theorem genNext_spec (fetch : Nat → PaginatedForms) (fuel : Nat) (s : GenSt) (c : Nat)
    (hInv : GenInv fetch c s) :
    GenInv fetch (c + (genNext fetch fuel s).1.toList.length)
      (genNext fetch fuel s).2.1 ∧
    (∀ q ∈ (genNext fetch fuel s).2.2, SumItems fetch (q - 1) ≤ c) ∧
    ((genNext fetch fuel s).1 = none →
      (genNext fetch fuel s).2.1 = GenSt.done) := by
  cases s with
  | start =>
    have hc : c = SumItems fetch (1 - 1) := hInv
    exact genNext_fetchLoop_inv fetch fuel c 1 le_rfl hc
  | mid buffer hmv page =>
    cases buffer with
    | cons f rest =>
      have hc : c + (f :: rest).length = SumItems fetch page := hInv
      refine ⟨?_, ?_, ?_⟩
      · have h2 : c + 1 + rest.length = SumItems fetch page := by
          simp at hc; omega
        exact h2
      · intro q hq; simp [genNext] at hq
      · intro h; simp [genNext] at h
    | nil =>
      have hc : c = SumItems fetch page := hInv
      by_cases hmt : hmv.truthy
      · have hgn : genNext fetch fuel (GenSt.mid [] hmv page) =
            fetchLoop fetch fuel (page + 1) := by
          simp [genNext, hmt]
        rw [hgn]
        have hc2 : c = SumItems fetch (page + 1 - 1) := by
          rw [Nat.add_sub_cancel]; exact hc
        exact genNext_fetchLoop_inv fetch fuel c (page + 1) (by omega) hc2
      · have hgn : genNext fetch fuel (GenSt.mid [] hmv page) =
            (none, GenSt.done, []) := by
          simp [genNext, hmt]
        rw [hgn]
        refine ⟨trivial, ?_, ?_⟩
        · intro q hq; simp at hq
        · intro _; rfl
  | done =>
    refine ⟨trivial, ?_, ?_⟩
    · intro q hq; simp [genNext] at hq
    · intro _; rfl

/-- An exhausted generator yields nothing and fetches nothing. -/
theorem genRun_done (fetch : Nat → PaginatedForms) (fuel : Nat) :
    ∀ k, genRun fetch fuel k GenSt.done = ([], []) := by
  intro k
  induction k with
  | zero => rfl
  | succ k ih => simp [genRun, genNext, ih]

/-- After `k` calls to `next()`, every fetched page `q` had all items of
pages `1..q-1` consumed beforehand, so its full prefix count stays below
the number of calls. -/
theorem genRun_bound (fetch : Nat → PaginatedForms) (fuel : Nat) :
    ∀ (k : Nat) (s : GenSt) (c : Nat), GenInv fetch c s →
      ∀ q ∈ (genRun fetch fuel k s).2, SumItems fetch (q - 1) + 1 ≤ c + k := by
  intro k
  induction k with
  | zero => intro s c _ q hq; simp [genRun] at hq
  | succ k ih =>
    intro s c hInv q hq
    obtain ⟨hInv2, hlog, hdone⟩ := genNext_spec fetch fuel s c hInv
    have hq2 : q ∈ (genNext fetch fuel s).2.2 ∨
        q ∈ (genRun fetch fuel k (genNext fetch fuel s).2.1).2 := by
      simpa [genRun] using hq
    rcases hq2 with hq2 | hq2
    · have := hlog q hq2; omega
    · cases ho : (genNext fetch fuel s).1 with
      | none =>
        rw [hdone ho, genRun_done] at hq2
        simp at hq2
      | some f =>
        have hInv3 : GenInv fetch (c + 1) (genNext fetch fuel s).2.1 := by
          rw [ho] at hInv2
          simpa using hInv2
        have := ih (genNext fetch fuel s).2.1 (c + 1) hInv3 q hq2
        omega

/-- C2: the iterator is lazy.  For every page bound `N`, while the caller
has made at most as many `next()` calls as there are items on pages
`1..N`, no page beyond `N` has been requested; in particular no
second-page request occurs before all first-page items are consumed. -/
theorem iter_lazy (fetch : Nat → PaginatedForms) (fuel k N : Nat)
    (hk : k ≤ SumItems fetch N) :
    ∀ q ∈ (genRun fetch fuel k GenSt.start).2, q ≤ N := by
  intro q hq
  have h1 : SumItems fetch (q - 1) + 1 ≤ 0 + k :=
    genRun_bound fetch fuel k GenSt.start 0 rfl q hq
  by_contra hgt
  have h2 : N ≤ q - 1 := by omega
  have h3 := SumItems_mono fetch h2
  omega

/-- Witness for C2: with two items on page 1, two `next()` calls fetch
only page 1. -/
theorem iter_lazy_witness :
    2 ≤ SumItems exFetch 1 ∧
    ∀ q ∈ (genRun exFetch 3 2 GenSt.start).2, q ≤ 1 :=
  ⟨by decide, iter_lazy exFetch 3 2 1 (by decide)⟩
